import Mathlib

/-!
Formal model of the Blue Orca AI backend (`server.js`): registration,
email OTP verification, login, chat sessions and the streaming chat relay.
Each SQLite table of the backend is modelled as an in-memory list of rows
in insertion order, and each HTTP handler becomes a pure function from a
database state and request data to a new state and a response value.
-/

namespace BlueOrca

/-- A row of the `users` table: id, email, password hash, verified flag. -/
structure UserRec where
  id : Nat
  email : String
  password : String
  verified : Bool
deriving DecidableEq

/-- A row of the `otps` table: email, code string, expiry timestamp in ms. -/
structure OtpRec where
  email : String
  code : String
  expires_at : Nat
deriving DecidableEq

/-- A row of the `chats` table: chat id, owning user id, title. -/
structure ChatRec where
  id : Nat
  user_id : Nat
  title : String
deriving DecidableEq

/-- A row of the `messages` table: owning chat, role, content.  The position
in the list models the storage (insertion) order of the rows. -/
structure MessageRec where
  chat_id : Nat
  role : String
  content : String
deriving DecidableEq

/-- The backend database (`db.js` tables), each table a list of rows in
insertion order. -/
structure Db where
  users : List UserRec
  otps : List OtpRec
  chats : List ChatRec
  messages : List MessageRec
deriving DecidableEq

/-- `Math.floor(100000 + Math.random() * 900000)` from POST /api/send-otp
(server.js line 59), with `Math.random()` modelled as a rational `r`;
every double in `[0, 1)` is such a rational. -/
def genOtpCode (r : ℚ) : Nat := (⌊(100000 : ℚ) + r * 900000⌋).toNat

/-- POST /api/send-otp (server.js lines 56-76): delete every OTP row for the
email, then insert one new row whose code is `genOtpCode r` and whose expiry
is `now + 5 * 60 * 1000`.  Sending the mail is an external side effect and
is not modelled. -/
def sendOtp (db : Db) (email : String) (r : ℚ) (now : Nat) : Db :=
  { db with otps := db.otps.filter (fun o => !(o.email == email)) ++
      [⟨email, toString (genOtpCode r), now + 5 * 60 * 1000⟩] }

/-- Response of POST /api/verify-otp: 200 ok, or 400 "OTP invalid / expired". -/
inductive VerifyResult where
  | ok
  | invalid
deriving DecidableEq

/-- POST /api/verify-otp (server.js lines 79-98): select the first OTP row
matching email and code; if there is none, or it is expired, answer 400 and
leave the database untouched; otherwise set `verified=1` on the email's user
rows, delete the email's OTP rows and answer ok. -/
def verifyOtp (db : Db) (email code : String) (now : Nat) : Db × VerifyResult :=
  match (db.otps.filter (fun o => o.email == email && o.code == code)).head? with
  | none => (db, VerifyResult.invalid)
  | some otp =>
    if otp.expires_at < now then (db, VerifyResult.invalid)
    else
      ({ db with
          users := db.users.map
            (fun u => if u.email == email then { u with verified := true } else u),
          otps := db.otps.filter (fun o => !(o.email == email)) },
       VerifyResult.ok)

/-- Modelled from the spec: the token-issuing collaborator (`jwt.sign`),
an opaque token derived from the user id and email. -/
def signToken (id : Nat) (email : String) : String :=
  "jwt." ++ toString id ++ "." ++ email

/-- Response of POST /api/login. -/
inductive LoginResult where
  | userNotFound
  | emailNotVerified
  | wrongPassword
  | token (t : String)
deriving DecidableEq

/-- POST /api/login (server.js lines 101-121): look the user up by email
(400 if absent); answer 403 "Email not verified" before any password
comparison when the user is unverified; only then compare the password
(`bcrypt.compare`, modelled as the parameter `compare`) and issue a token. -/
def login (compare : String → String → Bool) (db : Db) (email pw : String) : LoginResult :=
  match (db.users.filter (fun u => u.email == email)).head? with
  | none => LoginResult.userNotFound
  | some user =>
    if !user.verified then LoginResult.emailNotVerified
    else if !(compare pw user.password) then LoginResult.wrongPassword
    else LoginResult.token (signToken user.id user.email)

/-- `INSERT INTO messages (chat_id, role, content) VALUES (?,?,?)`:
append one row to the messages table. -/
def appendMessage (db : Db) (chatId : Nat) (role content : String) : Db :=
  { db with messages := db.messages ++ [⟨chatId, role, content⟩] }

/-- `SELECT role, content FROM messages WHERE chat_id=?` (server.js lines
145-148 and 177-180): the chat's rows in storage order projected to role and
content.  Modelled from the spec for the store (`db.js` is not among the
sources): reads return rows of a chat in insertion order. -/
def messagesFor (db : Db) (chatId : Nat) : List (String × String) :=
  (db.messages.filter (fun m => m.chat_id == chatId)).map (fun m => (m.role, m.content))

/-- Response of GET /api/messages/:chatId.  The `forbidden` alternative is
present so the ownership contract can be stated; the handler as written
never produces it. -/
inductive GetMessagesResult where
  | ok (msgs : List (String × String))
  | forbidden
deriving DecidableEq

/-- GET /api/messages/:chatId (server.js lines 176-182): returns the chat's
messages.  The handler runs behind the `auth` middleware, so `callerId` is
the authenticated user's id, but the query never consults it: the handler
performs no ownership check on the chat. -/
def getMessages (db : Db) (callerId : Nat) (chatId : Nat) : GetMessagesResult :=
  GetMessagesResult.ok (messagesFor db chatId)

/-- One step of the overridden `res.write` (server.js lines 151-155): the
chunk is appended to the accumulator `full` and forwarded to the original
write, i.e. recorded on the list of chunks written to the response channel. -/
def teeWrite (st : String × List String) (chunk : String) : String × List String :=
  (st.1 ++ chunk, st.2 ++ [chunk])

/-- Modelled from the spec: `streamChat` (`openai.js`, not among the
sources) writes each upstream fragment to the response object in arrival
order, so driving it through the overridden write folds `teeWrite` over the
fragment sequence from an empty accumulator and channel. -/
def runStream (frags : List String) : String × List String :=
  frags.foldl teeWrite ("", [])

/-- Error exits of the chat-stream relay. -/
inductive RelayError where
  | sessionNotFound
  | upstreamError
deriving DecidableEq

/-- Observable outcome of one POST /api/chat-stream/:chatId invocation:
final database, history handed to the upstream client (when reached),
chunks written to the response channel, assistant content committed (when
reached), number of upstream calls made, and the error if the handler
aborted. -/
structure RelayOutcome where
  db : Db
  historySent : Option (List (String × String))
  written : List String
  committed : Option String
  upstreamCalls : Nat
  error : Option RelayError
deriving DecidableEq

/-- POST /api/chat-stream/:chatId (server.js lines 133-165).  The upstream
client is the parameter `upstream`, taking the history and returning the
fragments it yields in order plus a failure flag — modelled from the spec
(`openai.js` is not among the sources): `stream(history)` yields text
fragments, then completes normally or raises `UpstreamError`, with no
internal retry.  The session-existence failure of the user-message insert
is likewise modelled from the spec (`db.js` is not among the sources):
appending to a nonexistent chat fails, and the handler, which has no
try/catch, stops there with nothing inserted.  On the success path the
handler appends the user message, loads the history, drives the upstream
through the tee, and — only when the upstream did not raise, since the
`await` on line 157 rethrows and lines 159-162 are then skipped — commits
the accumulated text as an assistant message. -/
def chatStream (db : Db) (chatId : Nat) (message : String)
    (upstream : List (String × String) → List String × Bool) : RelayOutcome :=
  if db.chats.any (fun c => c.id == chatId) then
    let db1 := appendMessage db chatId "user" message
    let history := messagesFor db1 chatId
    let res := upstream history
    let acc := runStream res.1
    if res.2 then
      { db := db1, historySent := some history, written := acc.2,
        committed := none, upstreamCalls := 1, error := some RelayError.upstreamError }
    else
      { db := appendMessage db1 chatId "assistant" acc.1,
        historySent := some history, written := acc.2,
        committed := some acc.1, upstreamCalls := 1, error := none }
  else
    { db := db, historySent := none, written := [], committed := none,
      upstreamCalls := 0, error := some RelayError.sessionNotFound }

/-- Appending a whole conversation to one chat, message by message. -/
def appendAll (db : Db) (chatId : Nat) (ms : List (String × String)) : Db :=
  ms.foldl (fun d m => appendMessage d chatId m.1 m.2) db

/-- At most one OTP row per email: the emails of the `otps` table are
pairwise distinct. -/
def otpInvariant (db : Db) : Prop := (db.otps.map (fun o => o.email)).Nodup

lemma string_append_assoc (a b c : String) : a ++ b ++ c = a ++ (b ++ c) := by
  apply String.ext
  simp [String.data_append]

lemma string_join_cons (a : String) (l : List String) :
    String.join (a :: l) = a ++ String.join l := by
  apply String.ext
  simp [String.join_eq, String.data_append]

lemma runStream_go (l : List String) (s : String) (w : List String) :
    l.foldl teeWrite (s, w) = (s ++ String.join l, w ++ l) := by
  induction l generalizing s w with
  | nil => simp [String.join]
  | cons a t ih =>
    simp only [List.foldl_cons, teeWrite, ih, string_join_cons]
    rw [string_append_assoc]
    simp

lemma runStream_eq (l : List String) : runStream l = (String.join l, l) := by
  have h := runStream_go l "" []
  have he : "" ++ String.join l = String.join l := by
    apply String.ext
    simp [String.data_append]
  simpa [runStream, he] using h

lemma filter_email_and_of_filter_ne (l : List OtpRec) (e : String) (p : OtpRec → Bool) :
    (l.filter (fun o => !(o.email == e))).filter (fun o => o.email == e && p o) = [] := by
  induction l with
  | nil => rfl
  | cons a t ih =>
    by_cases h : a.email = e
    · simp [List.filter_cons, h, ih]
    · simp [List.filter_cons, h, ih]

lemma messagesFor_append_self (db : Db) (chatId : Nat) (role content : String) :
    messagesFor (appendMessage db chatId role content) chatId =
      messagesFor db chatId ++ [(role, content)] := by
  simp [messagesFor, appendMessage, List.filter_append]

lemma messagesFor_appendAll (db : Db) (chatId : Nat) (ms : List (String × String)) :
    messagesFor (appendAll db chatId ms) chatId = messagesFor db chatId ++ ms := by
  induction ms generalizing db with
  | nil => simp [appendAll]
  | cons m t ih =>
    show messagesFor (appendAll (appendMessage db chatId m.1 m.2) chatId t) chatId = _
    rw [ih, messagesFor_append_self]
    simp

lemma mem_filter_ne_email {l : List OtpRec} {e : String} {o : OtpRec}
    (h : o ∈ l.filter (fun o => !(o.email == e))) : o.email ≠ e := by
  have := List.of_mem_filter h
  simpa using this

lemma otpInvariant_sendOtp (db : Db) (e : String) (r : ℚ) (now : Nat)
    (h : otpInvariant db) : otpInvariant (sendOtp db e r now) := by
  unfold otpInvariant sendOtp at *
  rw [List.map_append]
  apply List.Nodup.append
  · exact h.sublist (List.Sublist.map _ (List.filter_sublist _))
  · simp
  · intro a ha hb
    simp only [List.map_cons, List.map_nil, List.mem_singleton] at hb
    rcases List.mem_map.mp ha with ⟨o, ho, rfl⟩
    exact mem_filter_ne_email ho hb

lemma otpInvariant_verifyOtp (db : Db) (e c : String) (t : Nat)
    (h : otpInvariant db) : otpInvariant (verifyOtp db e c t).1 := by
  unfold verifyOtp
  cases hm : (db.otps.filter (fun o => o.email == e && o.code == c)).head? with
  | none => exact h
  | some otp =>
    by_cases ht : otp.expires_at < t
    · simp only [ht, if_true]
      exact h
    · simp only [ht, if_false]
      exact h.sublist (List.Sublist.map _ (List.filter_sublist _))

lemma verifyOtp_of_filter_nil {db : Db} {e c : String} {t : Nat}
    (h : db.otps.filter (fun o => o.email == e && o.code == c) = []) :
    verifyOtp db e c t = (db, VerifyResult.invalid) := by
  unfold verifyOtp
  rw [h]
  rfl

lemma verifyOtp_of_filter_single {db : Db} {e c : String} {t : Nat} {o : OtpRec}
    (h : db.otps.filter (fun x => x.email == e && x.code == c) = [o])
    (ht : ¬ o.expires_at < t) :
    verifyOtp db e c t =
      ({ db with
          users := db.users.map
            (fun u => if u.email == e then { u with verified := true } else u),
          otps := db.otps.filter (fun x => !(x.email == e)) },
       VerifyResult.ok) := by
  unfold verifyOtp
  rw [h]
  simp [ht]

lemma verified_after_update (l : List UserRec) (e : String) :
    ∀ u ∈ l.map (fun u => if u.email == e then { u with verified := true } else u),
      u.email = e → u.verified = true := by
  intro u hu he
  rcases List.mem_map.mp hu with ⟨u0, _, rfl⟩
  by_cases h : u0.email = e
  · simp [h]
  · simp [h] at he

/-- A database holding exactly one chat, id 1, owned by user 7. -/
def dbOneChat : Db :=
  { users := [], otps := [], chats := [⟨1, 7, "New Chat"⟩], messages := [] }

/-- The empty database. -/
def dbEmpty : Db := { users := [], otps := [], chats := [], messages := [] }

/-- C1: in a relay invocation of POST /api/chat-stream/:chatId where the
upstream client completes normally, the chunks written to the response
channel are exactly the fragments the upstream yielded, in order, and the
content committed to the message store as the assistant message is the
concatenation of the written chunks: no fragment is accumulated without
being forwarded and none is dropped. -/
theorem relay_tee_roundtrip (db : Db) (chatId : Nat) (message : String)
    (upstream : List (String × String) → List String × Bool)
    (hchat : db.chats.any (fun c => c.id == chatId) = true)
    (hok : (upstream (messagesFor (appendMessage db chatId "user" message) chatId)).2 = false) :
    (chatStream db chatId message upstream).written =
      (upstream (messagesFor (appendMessage db chatId "user" message) chatId)).1 ∧
    (chatStream db chatId message upstream).committed =
      some (String.join ((chatStream db chatId message upstream).written)) := by
  simp [chatStream, hchat, hok, runStream_eq]

/-- Witness for `relay_tee_roundtrip` at a concrete database and a stubbed
upstream yielding two fragments. -/
theorem relay_tee_roundtrip_witness :
    dbOneChat.chats.any (fun c => c.id == 1) = true ∧
    ((fun _ : List (String × String) => (["Hello ", "world"], false))
        (messagesFor (appendMessage dbOneChat 1 "user" "hi") 1)).2 = false ∧
    ((chatStream dbOneChat 1 "hi"
        (fun _ : List (String × String) => (["Hello ", "world"], false))).written =
      ((fun _ : List (String × String) => (["Hello ", "world"], false))
        (messagesFor (appendMessage dbOneChat 1 "user" "hi") 1)).1 ∧
    (chatStream dbOneChat 1 "hi"
        (fun _ : List (String × String) => (["Hello ", "world"], false))).committed =
      some (String.join ((chatStream dbOneChat 1 "hi"
        (fun _ : List (String × String) => (["Hello ", "world"], false))).written))) :=
  ⟨by decide, by decide,
    relay_tee_roundtrip dbOneChat 1 "hi"
      (fun _ : List (String × String) => (["Hello ", "world"], false))
      (by decide) (by decide)⟩

/-- C2 counterexample: with a stubbed upstream yielding "f1", "f2" and then
failing, the handler commits nothing at all — the claimed assistant message
"f1f2" is absent and only the user row reaches the store, because the
rejected `await streamChat(...)` skips the insert on server.js lines
159-162. -/
theorem relay_upstream_error_counterexample :
    (chatStream dbOneChat 1 "hi"
        (fun _ : List (String × String) => (["f1", "f2"], true))).committed ≠
      some ("f1" ++ "f2") ∧
    (chatStream dbOneChat 1 "hi"
        (fun _ : List (String × String) => (["f1", "f2"], true))).db.messages =
      [⟨1, "user", "hi"⟩] := by
  decide

/-- C2 amended: if the upstream stream fails with UpstreamError after
yielding fragments f1..fk, those fragments are still forwarded to the
response channel and the upstream is called exactly once (no retry), but the
relay does NOT commit the accumulated partial response: no assistant message
is stored and the database keeps only the appended user message. -/
theorem relay_upstream_error_no_commit (db : Db) (chatId : Nat) (message : String)
    (upstream : List (String × String) → List String × Bool)
    (hchat : db.chats.any (fun c => c.id == chatId) = true)
    (hfail : (upstream (messagesFor (appendMessage db chatId "user" message) chatId)).2 = true) :
    (chatStream db chatId message upstream).written =
      (upstream (messagesFor (appendMessage db chatId "user" message) chatId)).1 ∧
    (chatStream db chatId message upstream).committed = none ∧
    (chatStream db chatId message upstream).db = appendMessage db chatId "user" message ∧
    (chatStream db chatId message upstream).upstreamCalls = 1 := by
  simp [chatStream, hchat, hfail, runStream_eq]

/-- Witness for `relay_upstream_error_no_commit` at a concrete database and
a stubbed upstream that fails after two fragments. -/
theorem relay_upstream_error_no_commit_witness :
    dbOneChat.chats.any (fun c => c.id == 1) = true ∧
    ((fun _ : List (String × String) => (["f1", "f2"], true))
        (messagesFor (appendMessage dbOneChat 1 "user" "hi") 1)).2 = true ∧
    ((chatStream dbOneChat 1 "hi"
        (fun _ : List (String × String) => (["f1", "f2"], true))).written =
      ((fun _ : List (String × String) => (["f1", "f2"], true))
        (messagesFor (appendMessage dbOneChat 1 "user" "hi") 1)).1 ∧
    (chatStream dbOneChat 1 "hi"
        (fun _ : List (String × String) => (["f1", "f2"], true))).committed = none ∧
    (chatStream dbOneChat 1 "hi"
        (fun _ : List (String × String) => (["f1", "f2"], true))).db =
      appendMessage dbOneChat 1 "user" "hi" ∧
    (chatStream dbOneChat 1 "hi"
        (fun _ : List (String × String) => (["f1", "f2"], true))).upstreamCalls = 1) :=
  ⟨by decide, by decide,
    relay_upstream_error_no_commit dbOneChat 1 "hi"
      (fun _ : List (String × String) => (["f1", "f2"], true))
      (by decide) (by decide)⟩

/-- C3: in every relay invocation on an existing chat, the user message is
appended before the history is loaded, so the history handed to the upstream
client is the chat's prior history extended with the just-submitted user
turn, which is therefore its last element. -/
theorem relay_history_last_user_turn (db : Db) (chatId : Nat) (message : String)
    (upstream : List (String × String) → List String × Bool)
    (hchat : db.chats.any (fun c => c.id == chatId) = true) :
    (chatStream db chatId message upstream).historySent =
      some (messagesFor db chatId ++ [("user", message)]) ∧
    ∀ h, (chatStream db chatId message upstream).historySent = some h →
      h.getLast? = some ("user", message) := by
  have h1 : (chatStream db chatId message upstream).historySent =
      some (messagesFor db chatId ++ [("user", message)]) := by
    rw [← messagesFor_append_self]
    simp [chatStream, hchat, apply_ite RelayOutcome.historySent]
  refine ⟨h1, ?_⟩
  intro h hh
  rw [h1] at hh
  injection hh with hh2
  rw [← hh2]
  exact List.getLast?_concat _

/-- Witness for `relay_history_last_user_turn` at a concrete database. -/
theorem relay_history_last_user_turn_witness :
    dbOneChat.chats.any (fun c => c.id == 1) = true ∧
    ((chatStream dbOneChat 1 "hi"
        (fun _ : List (String × String) => (["ok"], false))).historySent =
      some (messagesFor dbOneChat 1 ++ [("user", "hi")]) ∧
    ∀ h, (chatStream dbOneChat 1 "hi"
        (fun _ : List (String × String) => (["ok"], false))).historySent = some h →
      h.getLast? = some ("user", "hi")) :=
  ⟨by decide,
    relay_history_last_user_turn dbOneChat 1 "hi"
      (fun _ : List (String × String) => (["ok"], false)) (by decide)⟩

/-- C5: when the chat id does not reference an existing chat, the relay
aborts with SessionNotFound: no message row is inserted, no history is
loaded, the upstream client is never invoked and nothing is committed. -/
theorem relay_session_not_found (db : Db) (chatId : Nat) (message : String)
    (upstream : List (String × String) → List String × Bool)
    (hchat : db.chats.any (fun c => c.id == chatId) = false) :
    chatStream db chatId message upstream =
      { db := db, historySent := none, written := [], committed := none,
        upstreamCalls := 0, error := some RelayError.sessionNotFound } := by
  simp [chatStream, hchat]

/-- Witness for `relay_session_not_found` on the empty database. -/
theorem relay_session_not_found_witness :
    dbEmpty.chats.any (fun c => c.id == 1) = false ∧
    chatStream dbEmpty 1 "hi" (fun _ : List (String × String) => (["ok"], false)) =
      { db := dbEmpty, historySent := none, written := [], committed := none,
        upstreamCalls := 0, error := some RelayError.sessionNotFound } :=
  ⟨by decide,
    relay_session_not_found dbEmpty 1 "hi"
      (fun _ : List (String × String) => (["ok"], false)) (by decide)⟩

/-- C4: reading a chat's messages back (the relay's history load and
GET /api/messages/:chatId) returns exactly the appended messages in
insertion order, and a chat with no messages yields the empty list rather
than an error. -/
theorem messages_read_in_insertion_order (db : Db) (callerId chatId : Nat)
    (ms : List (String × String)) (hempty : messagesFor db chatId = []) :
    getMessages (appendAll db chatId ms) callerId chatId = GetMessagesResult.ok ms ∧
    getMessages db callerId chatId = GetMessagesResult.ok [] := by
  constructor
  · simp [getMessages, messagesFor_appendAll, hempty]
  · simp [getMessages, hempty]

/-- Witness for `messages_read_in_insertion_order`: three messages appended
to chat 1 of the empty database read back in order. -/
theorem messages_read_in_insertion_order_witness :
    messagesFor dbEmpty 1 = [] ∧
    (getMessages (appendAll dbEmpty 1 [("user", "m1"), ("assistant", "m2"), ("user", "m3")]) 7 1 =
      GetMessagesResult.ok [("user", "m1"), ("assistant", "m2"), ("user", "m3")] ∧
    getMessages dbEmpty 7 1 = GetMessagesResult.ok []) :=
  ⟨by decide,
    messages_read_in_insertion_order dbEmpty 7 1
      [("user", "m1"), ("assistant", "m2"), ("user", "m3")] (by decide)⟩

/-- A database where user 1 owns chat 1, which holds one message, and user 2
exists but owns nothing. -/
def dbTwoUsers : Db :=
  { users := [⟨1, "a@x", "h1", true⟩, ⟨2, "b@x", "h2", true⟩],
    otps := [],
    chats := [⟨1, 1, "New Chat"⟩],
    messages := [⟨1, "user", "hi"⟩] }

/-- C6 counterexample: caller 2 requests the messages of chat 1, which is
owned by user 1, and receives the chat's message data rather than Forbidden:
the handler performs no ownership check. -/
theorem get_messages_ownership_counterexample :
    getMessages dbTwoUsers 2 1 ≠ GetMessagesResult.forbidden ∧
    getMessages dbTwoUsers 2 1 = GetMessagesResult.ok [("user", "hi")] := by
  decide

/-- C6 amended: GET /api/messages/:chatId returns the chat's stored messages
to every authenticated caller, owner or not — the result is independent of
the caller's identity and is never Forbidden, because the handler performs
no ownership check on the chat. -/
theorem get_messages_ignores_caller (db : Db) (callerA callerB chatId : Nat) :
    getMessages db callerA chatId = GetMessagesResult.ok (messagesFor db chatId) ∧
    getMessages db callerA chatId = getMessages db callerB chatId :=
  ⟨rfl, rfl⟩

/-- A database holding one unexpired OTP row and one unverified user. -/
def dbOtp : Db :=
  { users := [⟨1, "a@x", "h1", false⟩],
    otps := [⟨"a@x", "111111", 9⟩],
    chats := [], messages := [] }

/-- C7: POST /api/send-otp first deletes every OTP row of the email and then
inserts a single fresh row whose expiry is fixed at issuance to
`now + 5 * 60 * 1000`, so after issuance the email has exactly that one row;
the at-most-one-row-per-email invariant is preserved by issuance, and by
verification for any email. -/
theorem otp_at_most_one_live (db : Db) (e : String) (r : ℚ) (now : Nat)
    (h : otpInvariant db) :
    (sendOtp db e r now).otps.filter (fun o => o.email == e) =
      [⟨e, toString (genOtpCode r), now + 5 * 60 * 1000⟩] ∧
    otpInvariant (sendOtp db e r now) ∧
    (∀ e2 c t, otpInvariant (verifyOtp db e2 c t).1) := by
  refine ⟨?_, otpInvariant_sendOtp db e r now h, fun e2 c t => otpInvariant_verifyOtp db e2 c t h⟩
  unfold sendOtp
  rw [List.filter_append]
  have h1 : (db.otps.filter (fun o => !(o.email == e))).filter (fun o => o.email == e) = [] := by
    refine List.filter_eq_nil_iff.mpr ?_
    intro o ho
    simpa using mem_filter_ne_email ho
  simp [h1]

/-- Witness for `otp_at_most_one_live` on a database already holding an OTP
row for the email. -/
theorem otp_at_most_one_live_witness :
    otpInvariant dbOtp ∧
    ((sendOtp dbOtp "a@x" 0 100).otps.filter (fun o => o.email == "a@x") =
      [⟨"a@x", toString (genOtpCode 0), 100 + 5 * 60 * 1000⟩] ∧
    otpInvariant (sendOtp dbOtp "a@x" 0 100) ∧
    (∀ e2 c t, otpInvariant (verifyOtp dbOtp e2 c t).1)) :=
  ⟨by unfold otpInvariant; decide,
    otp_at_most_one_live dbOtp "a@x" 0 100 (by unfold otpInvariant; decide)⟩

/-- C8: after issuing code C for an email, verifying with a wrong code fails
as invalid and changes nothing; verifying with C before its expiry succeeds,
marks the email's users verified and deletes the code; verifying again with
the same C fails because the code has been invalidated. -/
theorem verify_otp_exactly_once (db : Db) (e wrong : String) (r : ℚ) (now t1 t2 t3 : Nat)
    (hW : wrong ≠ toString (genOtpCode r))
    (hT : t2 ≤ now + 5 * 60 * 1000) :
    verifyOtp (sendOtp db e r now) e wrong t1 = (sendOtp db e r now, VerifyResult.invalid) ∧
    (verifyOtp (sendOtp db e r now) e (toString (genOtpCode r)) t2).2 = VerifyResult.ok ∧
    (∀ u ∈ (verifyOtp (sendOtp db e r now) e (toString (genOtpCode r)) t2).1.users,
        u.email = e → u.verified = true) ∧
    (verifyOtp (verifyOtp (sendOtp db e r now) e (toString (genOtpCode r)) t2).1
        e (toString (genOtpCode r)) t3).2 = VerifyResult.invalid := by
  have hwrong : (sendOtp db e r now).otps.filter
      (fun o => o.email == e && o.code == wrong) = [] := by
    unfold sendOtp
    rw [List.filter_append, filter_email_and_of_filter_ne]
    simp [hW.symm]
  have hright : (sendOtp db e r now).otps.filter
      (fun o => o.email == e && o.code == toString (genOtpCode r)) =
      [⟨e, toString (genOtpCode r), now + 5 * 60 * 1000⟩] := by
    unfold sendOtp
    rw [List.filter_append, filter_email_and_of_filter_ne]
    simp
  have hok := verifyOtp_of_filter_single (t := t2) hright
    ((by omega : ¬ now + 5 * 60 * 1000 < t2))
  refine ⟨verifyOtp_of_filter_nil hwrong, ?_, ?_, ?_⟩
  · rw [hok]
  · rw [hok]
    exact verified_after_update _ e
  · rw [hok]
    rw [verifyOtp_of_filter_nil (filter_email_and_of_filter_ne _ e _)]

lemma genOtpCode_zero : genOtpCode 0 = 100000 := by
  unfold genOtpCode
  norm_num
  rfl

/-- Witness for `verify_otp_exactly_once`: concrete database, email,
random value 0 and a wrong code "000000". -/
theorem verify_otp_exactly_once_witness :
    "000000" ≠ toString (genOtpCode 0) ∧
    (0 : Nat) ≤ 0 + 5 * 60 * 1000 ∧
    (verifyOtp (sendOtp dbOtp "a@x" 0 0) "a@x" "000000" 0 =
        (sendOtp dbOtp "a@x" 0 0, VerifyResult.invalid) ∧
    (verifyOtp (sendOtp dbOtp "a@x" 0 0) "a@x" (toString (genOtpCode 0)) 0).2 =
        VerifyResult.ok ∧
    (∀ u ∈ (verifyOtp (sendOtp dbOtp "a@x" 0 0) "a@x" (toString (genOtpCode 0)) 0).1.users,
        u.email = "a@x" → u.verified = true) ∧
    (verifyOtp (verifyOtp (sendOtp dbOtp "a@x" 0 0) "a@x" (toString (genOtpCode 0)) 0).1
        "a@x" (toString (genOtpCode 0)) 0).2 = VerifyResult.invalid) :=
  ⟨by rw [genOtpCode_zero]; decide, by decide,
    verify_otp_exactly_once dbOtp "a@x" "000000" 0 0 0 0 0
      (by rw [genOtpCode_zero]; decide) (by decide)⟩

/-- C9: every OTP code produced by POST /api/send-otp is an integer between
100000 and 999999 inclusive, so its decimal string always has exactly six
digits and cannot start with a zero. -/
theorem otp_code_six_digits (r : ℚ) (h0 : 0 ≤ r) (h1 : r < 1) :
    100000 ≤ genOtpCode r ∧ genOtpCode r ≤ 999999 ∧
    (Nat.digits 10 (genOtpCode r)).length = 6 := by
  have hx0 : (100000 : ℚ) ≤ 100000 + r * 900000 := by nlinarith
  have hx1 : (100000 : ℚ) + r * 900000 < 1000000 := by nlinarith
  have hf0 : (100000 : ℤ) ≤ ⌊(100000 : ℚ) + r * 900000⌋ := by
    refine Int.le_floor.mpr ?_
    exact_mod_cast hx0
  have hf1 : ⌊(100000 : ℚ) + r * 900000⌋ < 1000000 := by
    refine Int.floor_lt.mpr ?_
    exact_mod_cast hx1
  have hn0 : 100000 ≤ genOtpCode r := by
    unfold genOtpCode
    omega
  have hn1 : genOtpCode r ≤ 999999 := by
    unfold genOtpCode
    omega
  refine ⟨hn0, hn1, ?_⟩
  have hne : genOtpCode r ≠ 0 := by omega
  rw [Nat.digits_len 10 _ (by norm_num) hne]
  have hlog : Nat.log 10 (genOtpCode r) = 5 := by
    refine Nat.log_eq_of_pow_le_of_lt_pow ?_ ?_
    · norm_num
      omega
    · norm_num
      omega
  omega

/-- Witness for `otp_code_six_digits` at the random value 0. -/
theorem otp_code_six_digits_witness :
    (0 : ℚ) ≤ 0 ∧ (0 : ℚ) < 1 ∧
    (100000 ≤ genOtpCode 0 ∧ genOtpCode 0 ≤ 999999 ∧
      (Nat.digits 10 (genOtpCode 0)).length = 6) :=
  ⟨le_refl 0, by norm_num, otp_code_six_digits 0 (le_refl 0) (by norm_num)⟩

/-- C10: for a registered but unverified account, POST /api/login answers
403 "Email not verified" whatever password is submitted: the handler
returns before `bcrypt.compare` runs, so the response is identical for any
two password inputs and reveals nothing about password correctness. -/
theorem login_unverified_ignores_password (compare : String → String → Bool)
    (db : Db) (e : String) (u : UserRec)
    (hu : (db.users.filter (fun x => x.email == e)).head? = some u)
    (hv : u.verified = false) :
    ∀ p1 p2 : String,
      login compare db e p1 = LoginResult.emailNotVerified ∧
      login compare db e p1 = login compare db e p2 := by
  intro p1 p2
  unfold login
  rw [hu]
  simp [hv]

/-- Witness for `login_unverified_ignores_password` on a database holding an
unverified user. -/
theorem login_unverified_ignores_password_witness :
    (dbOtp.users.filter (fun x => x.email == "a@x")).head? =
      some ⟨1, "a@x", "h1", false⟩ ∧
    (UserRec.mk 1 "a@x" "h1" false).verified = false ∧
    ∀ p1 p2 : String,
      login (fun _ _ => true) dbOtp "a@x" p1 = LoginResult.emailNotVerified ∧
      login (fun _ _ => true) dbOtp "a@x" p1 = login (fun _ _ => true) dbOtp "a@x" p2 :=
  ⟨by decide, by decide,
    login_unverified_ignores_password (fun _ _ => true) dbOtp "a@x"
      ⟨1, "a@x", "h1", false⟩ (by decide) (by decide)⟩

end BlueOrca
